import Mathlib

/-!
Verification development for the sequential-thinking orchestration engine of
the advanced-reason-mcp repository.  The TypeScript sources are shallowly
embedded: the single-backend server (src/modules/providers/openrouter.ts,
bundled at the end of src/modules/sequential/utils.ts), the Gemini variant
(src/modules/providers/google-ai.ts with src/modules/code/context.ts), and
the multi-backend combiner (src/modules/sequential/index.ts).  Stateful
methods become explicit state-passing functions; the model-backend network
call becomes an `Except`-valued parameter; JavaScript regular-expression
matching is embedded by a backtracking matcher with JS semantics (leftmost
start position, alternation in source order, greedy quantifiers).
-/

set_option maxRecDepth 20000

namespace ARMcp

/-! JavaScript string primitives used by the sources. -/

/-- ASCII lower-casing of one character; models what
`String.prototype.toLowerCase` and the regex `i` flag do on the ASCII texts
the detector handles. -/
def lowerAscii (c : Char) : Char :=
  if 65 ≤ c.toNat ∧ c.toNat ≤ 90 then Char.ofNat (c.toNat + 32) else c

/-- Case-insensitive character comparison (regex `i` flag). -/
def eqCI (a b : Char) : Bool := lowerAscii a == lowerAscii b

/-- The characters matched by the regex class `\s` and trimmed by
`String.prototype.trim` (ASCII part). -/
def wsChar (c : Char) : Bool :=
  c == ' ' || c == '\t' || c == '\n' || c == '\r' || c == '\x0b' || c == '\x0c'

/-- Drop leading and trailing whitespace from a character list. -/
def trimChars (l : List Char) : List Char :=
  ((l.dropWhile wsChar).reverse.dropWhile wsChar).reverse

/-- Model of `String.prototype.trim`. -/
def jsTrim (s : String) : String := ⟨trimChars s.data⟩

/-- Model of `String.prototype.toLowerCase` (ASCII). -/
def jsToLower (s : String) : String := ⟨s.data.map lowerAscii⟩

/-- Does `cs` start with `pat` (exact characters)? -/
def leadsWith : List Char → List Char → Bool
  | [], _ => true
  | _ :: _, [] => false
  | p :: ps, c :: cs => p == c && leadsWith ps cs

/-- Does `pat` occur contiguously inside `hay`? -/
def containsChars (pat : List Char) : List Char → Bool
  | [] => pat.isEmpty
  | c :: cs => leadsWith pat (c :: cs) || containsChars pat cs

/-- Model of `hay.includes(pat)` for JS strings. -/
def containsStr (hay pat : String) : Bool := containsChars pat.data hay.data

/-- `pat` occurs contiguously inside `s` (propositional form used to state
the claims about prompt and response texts). -/
def SubstrOf (pat s : String) : Prop := ∃ a b : String, s = a ++ pat ++ b

/-- JS `x || dflt` on strings: the empty string is falsy. -/
def jsOrElse (o : Option String) (dflt : String) : String :=
  match o with
  | some s => if s = "" then dflt else s
  | none => dflt

/-- JS truthiness of an optional string (absent and empty are falsy). -/
def strTruthy (o : Option String) : Bool :=
  match o with
  | some s => s ≠ ""
  | none => false

/-- JS truthiness of an optional boolean. -/
def boolTruthy (o : Option Bool) : Bool :=
  match o with
  | some b => b
  | none => false

/-- JS truthiness of an optional positive integer (absent and 0 are falsy). -/
def natTruthy (o : Option Nat) : Bool :=
  match o with
  | some n => n ≠ 0
  | none => false

/-- Template-literal rendering of an optional integer field (JS prints the
text `undefined` for a missing value). -/
def optNatText (o : Option Nat) : String :=
  match o with
  | some n => toString n
  | none => "undefined"

/-- Template-literal rendering of a boolean. -/
def boolText (b : Bool) : String := if b then "true" else "false"

/-- Split a character list at every occurrence of `sep`; models
`String.prototype.split` with a one-character separator. -/
def splitOnChar (sep : Char) : List Char → List (List Char)
  | [] => [[]]
  | c :: cs =>
    let r := splitOnChar sep cs
    if c == sep then [] :: r
    else
      match r with
      | [] => [[c]]
      | h :: t => (c :: h) :: t

/-- Model of `s.split(sep)` for a one-character separator. -/
def jsSplit (s : String) (sep : Char) : List String :=
  (splitOnChar sep s.data).map (fun cs => ⟨cs⟩)

/-! Embedding of the JavaScript regular expressions used by
`detectToolRequest`.  The abstract syntax covers exactly the constructs
those three patterns use; `mrun` is a continuation-passing backtracking
matcher with JS semantics: alternatives in source order, greedy `?` and
`+`, and a single capturing group whose text is the match result. -/

inductive Rx where
  | eps : Rx
  | lit : String → Rx
  | cls : (Char → Bool) → Rx
  | plusCls : (Char → Bool) → Rx
  | seq : Rx → Rx → Rx
  | alt : Rx → Rx → Rx
  | opt : Rx → Rx
  | group : Rx → Rx

/-- Consume `pat` case-insensitively from the head of `cs`. -/
def stripCI : List Char → List Char → Option (List Char)
  | [], cs => some cs
  | _ :: _, [] => none
  | p :: ps, c :: cs => if eqCI p c then stripCI ps cs else none

/-- Greedy backtracking for `+` over a character class: try the longest
consumption first, giving back one character at a time (never zero). -/
def tryFromLen (k : List Char → Option (List Char)) (cs : List Char) :
    Nat → Option (List Char)
  | 0 => none
  | i + 1 => (k (cs.drop (i + 1))).orElse (fun _ => tryFromLen k cs i)

/-- Backtracking matcher.  `k` receives the unconsumed remainder; a `some`
result is the text of the capturing group on the successful path. -/
def mrun : Rx → List Char → (List Char → Option (List Char)) →
    Option (List Char)
  | .eps, cs, k => k cs
  | .lit s, cs, k =>
    match stripCI s.data cs with
    | some rest => k rest
    | none => none
  | .cls p, cs, k =>
    match cs with
    | [] => none
    | c :: rest => if p c then k rest else none
  | .plusCls p, cs, k => tryFromLen k cs (cs.takeWhile p).length
  | .seq a b, cs, k => mrun a cs (fun rest => mrun b rest k)
  | .alt a b, cs, k => (mrun a cs k).orElse (fun _ => mrun b cs k)
  | .opt a, cs, k => (mrun a cs k).orElse (fun _ => k cs)
  | .group a, cs, k =>
    mrun a cs (fun rest => (k rest).map (fun _ => cs.take (cs.length - rest.length)))

/-- Unanchored search, as `String.prototype.match`: try every start
position from the left; the remainder after the match is unconstrained. -/
def searchRx (rx : Rx) : List Char → Option (List Char)
  | [] => mrun rx [] (fun _ => some [])
  | c :: rest =>
    (mrun rx (c :: rest) (fun _ => some [])).orElse (fun _ => searchRx rx rest)

/-- Search a string, returning the capturing group's text. -/
def searchStr (rx : Rx) (s : String) : Option String :=
  (searchRx rx s.data).map (fun cap => ⟨cap⟩)

/-- Chain a list of regexes in sequence. -/
def seqList (rs : List Rx) : Rx := rs.foldr Rx.seq Rx.eps

/-- Fold a list of alternatives in source order. -/
def altList (rs : List Rx) : Rx := rs.foldr Rx.alt (Rx.lit "\x00")

/-- The double-quote character of the regex classes. -/
def qD : Char := Char.ofNat 34

/-- The single-quote character of the regex classes. -/
def qS : Char := Char.ofNat 39

/-- The class `[^"'\n.!?]`. -/
def queryChar (c : Char) : Bool :=
  !(c == qD || c == qS || c == '\n' || c == '.' || c == '!' || c == '?')

/-- The class `["']`. -/
def quoteChar (c : Char) : Bool := c == qD || c == qS

/-- `(?:need|should|must|require)s?\s+(?:to\s+)?`: shared front of all
three detector regexes. -/
def verbFrontRx : List Rx :=
  [Rx.alt (.lit "need") (.alt (.lit "should") (.alt (.lit "must") (.lit "require"))),
   Rx.opt (.lit "s"), Rx.plusCls wsChar,
   Rx.opt (.seq (.lit "to") (.plusCls wsChar))]

/-- `:?\s+["']?([^"'\n.!?]+)["']?`: shared tail of all three regexes. -/
def queryTailRx : List Rx :=
  [Rx.opt (.lit ":"), Rx.plusCls wsChar, Rx.opt (.cls quoteChar),
   Rx.group (.plusCls queryChar), Rx.opt (.cls quoteChar)]

/-- The code-retrieval pattern of `detectToolRequest`. -/
def codeRequestRx : Rx :=
  seqList (verbFrontRx ++
    [Rx.alt (.lit "see") (.alt (.lit "check") (.alt (.lit "review")
       (.alt (.lit "examine") (.alt (.lit "analyze") (.alt (.lit "retrieve")
       (.alt (.lit "get") (.alt (.lit "find")
       (.seq (.lit "look") (.seq (.plusCls wsChar) (.lit "at")))))))))),
     Rx.plusCls wsChar, Rx.opt (.seq (.lit "the") (.plusCls wsChar)),
     Rx.lit "code",
     Rx.opt (.seq (.plusCls wsChar) (.lit "for")),
     Rx.opt (.seq (.plusCls wsChar) (.lit "in"))] ++ queryTailRx)

/-- The documentation-lookup pattern of `detectToolRequest`. -/
def docRequestRx : Rx :=
  seqList (verbFrontRx ++
    [Rx.alt (.lit "see") (.alt (.lit "check") (.alt (.lit "review")
       (.alt (.lit "read") (.alt (.lit "consult")
       (.alt (.lit "examine") (.lit "reference")))))),
     Rx.plusCls wsChar, Rx.opt (.seq (.lit "the") (.plusCls wsChar)),
     Rx.lit "documentation",
     Rx.opt (.alt (.seq (.plusCls wsChar) (.lit "for")) (.lit "about"))] ++
    queryTailRx)

/-- The file-search pattern of `detectToolRequest`. -/
def fileRequestRx : Rx :=
  seqList (verbFrontRx ++
    [Rx.alt (.lit "search") (.alt (.lit "find") (.alt (.lit "locate") (.lit "list"))),
     Rx.plusCls wsChar, Rx.opt (.seq (.lit "all") (.plusCls wsChar)),
     Rx.lit "file", Rx.opt (.lit "s"),
     Rx.opt (.seq (.plusCls wsChar) (.lit "that")),
     Rx.opt (.seq (.plusCls wsChar) (.lit "contain"))] ++ queryTailRx)

/-- Result shape of `detectToolRequest`. -/
structure ToolRequest where
  needsTool : Bool
  toolType : String
  query : String
deriving DecidableEq

/-- Line scan of the fallback branch of `detectToolRequest`: a line
containing one of the four cue phrases yields a suggestion whose query is
the text after the last colon (or the literal fallback). -/
def fallbackScanLine (line : String) : Option ToolRequest :=
  let low := jsToLower line
  if containsStr low "search for" || containsStr low "look for" ||
      containsStr low "find files" || containsStr low "retrieve code" then
    some
      { needsTool := true
        toolType := if containsStr low "search" then "file_search" else "code_retrieval"
        query :=
          let q := jsTrim (((jsSplit line ':').getLast?).getD "")
          if q = "" then "relevant code" else q }
  else none

/-- Embedding of `OpenRouterSequentialThinkingServer.detectToolRequest`
(src/modules/sequential/utils.ts): three regex rules tried in order, then a
fixed-phrase fallback scanned line by line. -/
def detectToolRequest (generatedThought : String) : Option ToolRequest :=
  match searchStr codeRequestRx generatedThought with
  | some cap => some ⟨true, "code_retrieval", jsTrim cap⟩
  | none =>
    match searchStr docRequestRx generatedThought with
    | some cap => some ⟨true, "documentation", jsTrim cap⟩
    | none =>
      match searchStr fileRequestRx generatedThought with
      | some cap => some ⟨true, "file_search", jsTrim cap⟩
      | none =>
        if containsStr generatedThought "I should use the file search tool" ||
            containsStr generatedThought "we need to examine the code" ||
            containsStr generatedThought "using the code retrieval tool" ||
            containsStr generatedThought "need to look up the API" then
          (jsSplit generatedThought '\n').findSome? fallbackScanLine
        else none

/-! Data model: request arguments, thought records, session state
(src/modules/sequential/utils.ts and the provider sources). -/

/-- The `externalToolResult` request field. -/
structure ExternalToolResult where
  toolType : String
  query : String
  result : String
deriving DecidableEq

/-- One symbol entry of a structured `CodeContext`
(src/modules/code/context.ts). -/
structure CodeSymbol where
  name : String
  type : String
  line : Option Int
deriving DecidableEq

/-- One file entry of a structured `CodeContext`. -/
structure CodeFile where
  path : String
  language : Option String
  snippet : Option String
  startLine : Option Int
  endLine : Option Int
  symbols : Option (List CodeSymbol)
deriving DecidableEq

/-- The `error` sub-object of a `CodeContext`. -/
structure CodeErrorInfo where
  message : Option String
  stack : Option String
deriving DecidableEq

/-- The `projectInfo` sub-object of a `CodeContext`; `structureDesc` embeds
the schema field named `structure`. -/
structure ProjectInfo where
  structureDesc : Option String
  dependencies : Option (List String)
deriving DecidableEq

/-- Structured code context (src/modules/code/context.ts). -/
structure CodeContext where
  query : Option String
  files : Option (List CodeFile)
  error : Option CodeErrorInfo
  projectInfo : Option ProjectInfo
deriving DecidableEq

/-- The `userContext` request field: a plain string or a structured
`CodeContext` object. -/
inductive UserContext where
  | str : String → UserContext
  | code : CodeContext → UserContext
deriving DecidableEq

/-- Render one symbol line of `formatCodeContext`. -/
def formatSymbol (s : CodeSymbol) : String :=
  "- " ++ s.name ++ " (" ++ s.type ++ ")" ++
  (match s.line with
   | some l => " at line " ++ toString l
   | none => "") ++ "\n"

/-- Render one file block of `formatCodeContext`. -/
def formatFile (f : CodeFile) : String :=
  "**File:** " ++ f.path ++
  (if strTruthy f.language then " (" ++ (f.language.getD "") ++ ")" else "") ++ "\n" ++
  (if f.startLine.isSome ∧ f.endLine.isSome then
    "Lines " ++ toString (f.startLine.getD 0) ++ "-" ++ toString (f.endLine.getD 0) ++ "\n"
   else "") ++
  (if strTruthy f.snippet then
    "```" ++ jsOrElse f.language "" ++ "\n" ++ f.snippet.getD "" ++ "\n```\n"
   else "") ++
  (match f.symbols with
   | some syms =>
     if syms.length > 0 then
       "\n**Relevant Symbols:**\n" ++ String.join (syms.map formatSymbol) ++ "\n"
     else ""
   | none => "")

/-- Embedding of `formatCodeContext` (src/modules/code/context.ts). -/
def formatCodeContext (c : CodeContext) : String :=
  "\n\n**Code Context:**\n" ++
  (if strTruthy c.query then "Question about: " ++ (c.query.getD "") ++ "\n\n" else "") ++
  String.join ((c.files.getD []).map formatFile) ++
  (match c.error with
   | some e =>
     if strTruthy e.message || strTruthy e.stack then
       "\n**Error Information:**\n" ++
       (if strTruthy e.message then "Error: " ++ (e.message.getD "") ++ "\n" else "") ++
       (if strTruthy e.stack then "```\n" ++ (e.stack.getD "") ++ "\n```\n" else "")
     else ""
   | none => "") ++
  (match c.projectInfo with
   | some p =>
     "\n**Project Information:**\n" ++
     (if strTruthy p.structureDesc then "Structure: " ++ (p.structureDesc.getD "") ++ "\n" else "") ++
     (match p.dependencies with
      | some deps =>
        if deps.length > 0 then "Dependencies: " ++ String.intercalate ", " deps ++ "\n" else ""
      | none => "")
   | none => "")

/-- The validated arguments of `SequentialThinkingSchema` plus the
`userContext` field the servers read. -/
structure SequentialArgs where
  currentThinking : String
  thoughtNumber : Nat
  totalThoughts : Nat
  nextThoughtNeeded : Bool
  isRevision : Option Bool
  revisesThought : Option Nat
  branchFromThought : Option Nat
  branchId : Option String
  needsMoreThoughts : Option Bool
  reasoningMode : String
  externalToolResult : Option ExternalToolResult
  userContext : Option UserContext
deriving DecidableEq

/-- Arguments with only the four required fields supplied, as in a minimal
tool call (the schema defaults `reasoningMode` to `analytical`). -/
def mkArgs (currentThinking : String) (thoughtNumber totalThoughts : Nat)
    (nextThoughtNeeded : Bool) : SequentialArgs :=
  ⟨currentThinking, thoughtNumber, totalThoughts, nextThoughtNeeded,
   none, none, none, none, none, "analytical", none, none⟩

/-- The `suggestedToolUse` field of a committed `ThoughtData`. -/
structure ToolUse where
  toolType : String
  query : String
deriving DecidableEq

/-- A committed thought record (`ThoughtData` in
src/modules/sequential/utils.ts). -/
structure ThoughtData where
  originalQuery : String
  currentThinking : String
  thoughtNumber : Nat
  totalThoughts : Nat
  nextThoughtNeeded : Bool
  thought : String
  isRevision : Option Bool
  revisesThought : Option Nat
  branchFromThought : Option Nat
  branchId : Option String
  reasoningMode : String
  userContext : Option UserContext
  suggestedToolUse : Option ToolUse
deriving DecidableEq

/-- The mutable instance state of one `OpenRouterSequentialThinkingServer`.
The `branches` record is modelled as a total map defaulting to the empty
list, which is observation-equivalent to the JS record. -/
structure ServerState where
  thoughtHistory : List ThoughtData
  branches : String → List Nat
  originalQuery : String
  lastThoughtTimestamp : Option Nat

/-- The state a freshly constructed server starts from. -/
def initialState : ServerState :=
  ⟨[], fun _ => [], "", none⟩

/-- Embedding of `isThinkingTooSimilar`: empty history passes, otherwise
exact string comparison with the last committed record. -/
def isThinkingTooSimilar (st : ServerState) (currentThinking : String) : Bool :=
  match st.thoughtHistory.getLast? with
  | none => false
  | some t => currentThinking == t.currentThinking

/-! Prompt assembly (`generateThoughtWithOpenRouter` in
src/modules/providers/openrouter.ts, bundled after the separator in
src/modules/sequential/utils.ts). -/

/-- JS `Array.prototype.sort` with the comparator
`(a, b) => b.thoughtNumber - a.thoughtNumber`: a stable descending sort,
modelled by stable insertion sort. -/
def sortDescByNumber (l : List ThoughtData) : List ThoughtData :=
  l.insertionSort (fun a b => b.thoughtNumber ≤ a.thoughtNumber)

/-- JS `Array.prototype.sort` with the comparator
`(a, b) => a.thoughtNumber - b.thoughtNumber`: a stable ascending sort. -/
def sortAscByNumber (l : List ThoughtData) : List ThoughtData :=
  l.insertionSort (fun a b => a.thoughtNumber ≤ b.thoughtNumber)

/-- The prior records included in the prompt: filter to `thoughtNumber`
strictly below the current one, stable-sort descending by `thoughtNumber`,
and keep the first two (`slice(0, 2)`). -/
def selectPrevThoughts (history : List ThoughtData) (n : Nat) : List ThoughtData :=
  (sortDescByNumber (history.filter (fun t => t.thoughtNumber < n))).take 2

/-- Render one prior record for the prompt. -/
def renderPrevThought (t : ThoughtData) : String :=
  "Previous Thought #" ++ toString t.thoughtNumber ++ ":\n" ++ t.thought

/-- The `previousThoughts` prompt section: the selected records re-sorted
ascending (oldest first) and joined by blank lines. -/
def previousThoughtsSection (history : List ThoughtData) (n : Nat) : String :=
  if 1 < n then
    let prevThoughts := selectPrevThoughts history n
    if prevThoughts.length > 0 then
      "\n\nPrevious thinking:\n" ++
      String.intercalate "\n\n" ((sortAscByNumber prevThoughts).map renderPrevThought) ++
      "\n\n"
    else ""
  else ""

/-- Template interpolation of a `userContext` value (a structured object
would render as its JS default string form). -/
def displayUserContext : UserContext → String
  | .str s => s
  | .code _ => "[object Object]"

/-- JS truthiness of the optional `userContext`. -/
def ucTruthy : Option UserContext → Bool
  | some (.str s) => s ≠ ""
  | some (.code _) => true
  | none => false

/-- The `userContextSection` of the OpenRouter prompt. -/
def userContextSection (uc : Option UserContext) : String :=
  if ucTruthy uc then
    "\n\n**User-Provided Context:**\n" ++
    (match uc with
     | some u => displayUserContext u
     | none => "") ++ "\n\n"
  else ""

/-- The `intro` sentence of the OpenRouter prompt; note that this variant
appends only the revision sentence, never a branch sentence. -/
def introOf (args : SequentialArgs) : String :=
  (if args.thoughtNumber = 1 then "This is the first thought in our analysis."
   else "This is Thought #" ++ toString args.thoughtNumber ++ " in our sequential analysis.") ++
  (if boolTruthy args.isRevision then
    " This revises Thought #" ++ optNatText args.revisesThought ++ "."
   else "")

/-- The closing directive appended on the last expected step. -/
def endingOf (args : SequentialArgs) : String :=
  if args.totalThoughts ≤ args.thoughtNumber then
    "\n\nThis is the final thought in our sequence. Consider providing a conclusion."
  else ""

/-- The reasoning-mode directive sentence. -/
def constraintsOf (args : SequentialArgs) : String :=
  if args.reasoningMode ≠ "" then
    "Apply " ++ args.reasoningMode ++ " reasoning to this thought."
  else ""

/-- The external-tool-results prompt block. -/
def externalToolInfoOf (args : SequentialArgs) : String :=
  match args.externalToolResult with
  | some r =>
    "\n\n\n**External Tool Results:**\nTool Used: " ++ r.toolType ++
    "\nQuery: " ++ r.query ++ "\nResult: \n" ++ r.result ++
    "\n\nPlease incorporate this information into your thinking.\n"
  | none => ""

/-- The assembled user prompt of `generateThoughtWithOpenRouter`,
as a function of the (already updated) `originalQuery`, the history and the
request. -/
def openRouterUserPrompt (originalQuery : String) (history : List ThoughtData)
    (args : SequentialArgs) : String :=
  "\n**Sequential Thinking Process - Thought #" ++ toString args.thoughtNumber ++
  " of " ++ toString args.totalThoughts ++
  "**\n\n**Original Request:** " ++ originalQuery ++
  userContextSection args.userContext ++
  "**Current Thinking:** " ++ args.currentThinking ++ "\n\n" ++
  introOf args ++ previousThoughtsSection history args.thoughtNumber ++
  externalToolInfoOf args ++ endingOf args ++
  "\n\n**Your Task for This Thought:**\nProvide the next logical step in our reasoning process. Consider the user context (if provided), previous thoughts, and current thinking to advance our understanding.\n\n" ++
  constraintsOf args ++
  "\n\nYour response should be a cohesive thought that moves our analysis forward.\n"

/-- The `intro` sentence of the Gemini variant
(src/modules/providers/google-ai.ts), which also handles branching. -/
def geminiIntroOf (args : SequentialArgs) : String :=
  (if args.thoughtNumber = 1 then "This is the first thought in our analysis."
   else "This is Thought #" ++ toString args.thoughtNumber ++ " in our sequential analysis.") ++
  (if boolTruthy args.isRevision then
    " This revises Thought #" ++ optNatText args.revisesThought ++ "."
   else if natTruthy args.branchFromThought then
    " This branches from Thought #" ++ optNatText args.branchFromThought ++ "."
   else "")

/-- The `userContextSection` of the Gemini variant, which renders a
structured `CodeContext` through `formatCodeContext`. -/
def geminiUserContextSection : Option UserContext → String
  | some (.str s) =>
    if s = "" then "" else "\n\n**User-Provided Context:**\n" ++ s ++ "\n\n"
  | some (.code c) => formatCodeContext c
  | none => ""

/-- The assembled prompt of `generateThoughtWithGemini`
(src/modules/providers/google-ai.ts). -/
def geminiPrompt (originalQuery : String) (history : List ThoughtData)
    (args : SequentialArgs) : String :=
  "\n**Your Role:** You are an AI assistant analyzing a complex problem through sequential thinking. This is Thought #" ++
  toString args.thoughtNumber ++ " of " ++ toString args.totalThoughts ++
  ".\n\n**Original Request:** " ++ originalQuery ++
  geminiUserContextSection args.userContext ++
  "**Current Thinking:** " ++ args.currentThinking ++ "\n\n" ++
  geminiIntroOf args ++ previousThoughtsSection history args.thoughtNumber ++
  externalToolInfoOf args ++ endingOf args ++
  "\n\n**Your Task for This Thought:**\nProvide the next logical step in our reasoning process. Consider the user context (if provided), previous thoughts, and current thinking to advance our understanding.\n\n" ++
  constraintsOf args ++
  "\n\nYour response should be a cohesive thought that moves our analysis forward.\n"

/-! The per-call cycle of the single-backend server. -/

/-- The `originalQuery` assignment at the top of
`generateThoughtWithOpenRouter`: overwritten whenever the incoming
`thoughtNumber` is 1 or the stored value is still empty. -/
def updateOriginalQuery (st : ServerState) (args : SequentialArgs) : ServerState :=
  if args.thoughtNumber = 1 ∨ st.originalQuery = "" then
    { st with originalQuery := args.currentThinking }
  else st

/-- The text produced by the model call: the message's `reasoning` field if
truthy, a fixed fallback if absent or empty, and a caught-error text if the
backend threw. -/
def generatedThoughtOf (api : Except String (Option String)) : String :=
  match api with
  | .ok reasoning => jsOrElse reasoning "Error: No response generated"
  | .error e => "Error generating thought: " ++ e

/-- Embedding of `generateThoughtWithOpenRouter`: the backend invocation is
the `api` parameter; the `originalQuery` assignment happens before the call
and survives a thrown backend error. -/
def generateThoughtWithOpenRouter (st : ServerState) (args : SequentialArgs)
    (api : Except String (Option String)) : ServerState × String :=
  (updateOriginalQuery st args, generatedThoughtOf api)

/-- The `suggestedToolUse` response field with its human-readable message. -/
structure ToolUseMsg where
  toolType : String
  query : String
  message : String
deriving DecidableEq

/-- The JSON success payload of a single-backend response. -/
structure ThoughtPayload where
  thought : String
  thoughtNumber : Nat
  totalThoughts : Nat
  nextThoughtNeeded : Bool
  suggestedToolUse : Option ToolUseMsg
  hint : String
deriving DecidableEq

/-- The text of one response content block.  JSON-encoded payloads are kept
structured (`JSON.parse ∘ JSON.stringify` is the identity on them); `plain`
holds non-JSON texts such as the catch-block `Error: ...` strings and the
combiner's formatted transcripts. -/
inductive RespText where
  | payload : ThoughtPayload → RespText
  | failed : String → String → RespText
  | parseFailed : String → String → String → RespText
  | bothFailed : String → RespText → RespText → String → RespText
  | plain : String → RespText
deriving DecidableEq

/-- One `{type, text}` content block. -/
structure ContentBlock where
  type : String
  text : RespText
deriving DecidableEq

/-- The response envelope: content blocks plus the optional `isError` flag
(absent on success). -/
structure McpResponse where
  content : List ContentBlock
  isError : Option Bool
deriving DecidableEq

/-- The similarity-guard error message. -/
def similarityErrorText : String :=
  "ERROR: The currentThinking parameter must be different for each thought."

/-- The structured response of a failed similarity check. -/
def similarityFailedResponse : McpResponse :=
  ⟨[⟨"text", .failed similarityErrorText "failed"⟩], some true⟩

/-- The `ThoughtData` record committed by `processSequentialThinking`. -/
def mkThoughtRecord (st1 : ServerState) (args : SequentialArgs)
    (generatedThought : String) (toolRequest : Option ToolRequest) : ThoughtData :=
  { originalQuery := jsOrElse (some st1.originalQuery) args.currentThinking
    currentThinking := args.currentThinking
    thoughtNumber := args.thoughtNumber
    totalThoughts := args.totalThoughts
    nextThoughtNeeded := args.nextThoughtNeeded
    thought := generatedThought
    isRevision := args.isRevision
    revisesThought := args.revisesThought
    branchFromThought := args.branchFromThought
    branchId := args.branchId
    reasoningMode := args.reasoningMode
    userContext := args.userContext
    suggestedToolUse := toolRequest.map (fun r => ⟨r.toolType, r.query⟩) }

/-- The branch-index update: when `branchFromThought` and `branchId` are
both truthy, push the thought number onto that branch's bucket. -/
def updateBranches (branches : String → List Nat) (args : SequentialArgs) :
    String → List Nat :=
  match args.branchFromThought, args.branchId with
  | some bft, some bid =>
    if bft ≠ 0 ∧ bid ≠ "" then
      fun id => if id = bid then branches id ++ [args.thoughtNumber] else branches id
    else branches
  | _, _ => branches

/-- The JSON success payload built at the end of a successful call. -/
def mkResponsePayload (args : SequentialArgs) (generatedThought : String)
    (toolRequest : Option ToolRequest) : ThoughtPayload :=
  { thought := generatedThought
    thoughtNumber := args.thoughtNumber
    totalThoughts := args.totalThoughts
    nextThoughtNeeded := args.nextThoughtNeeded
    suggestedToolUse := toolRequest.map (fun r =>
      ⟨r.toolType, r.query,
       "Consider using the " ++ r.toolType ++ " tool with query: \"" ++ r.query ++
       "\" before continuing with sequential thinking"⟩)
    hint :=
      match toolRequest with
      | some _ => "Consider using the suggested tool before continuing with sequential thinking"
      | none => "Use this thought as input for next call" }

/-- The outcome of one `processSequentialThinking` call: the new session
state, the response, and whether the model backend was invoked
(instrumentation for the fail-fast similarity guard). -/
structure StepResult where
  state : ServerState
  response : McpResponse
  modelInvoked : Bool

/-- Embedding of `OpenRouterSequentialThinkingServer.processSequentialThinking`:
similarity guard, (pacing delay — no state effect), generation, tool
detection, history commit, branch bookkeeping, response shaping.  `now`
models `Date.now()` at the commit point. -/
def processSequentialThinking (st : ServerState) (args : SequentialArgs)
    (api : Except String (Option String)) (now : Nat) : StepResult :=
  if isThinkingTooSimilar st args.currentThinking then
    { state := st, response := similarityFailedResponse, modelInvoked := false }
  else
    let gen := generateThoughtWithOpenRouter st args api
    let generatedThought := gen.2
    let toolRequest := detectToolRequest generatedThought
    let record := mkThoughtRecord gen.1 args generatedThought toolRequest
    { state :=
        { thoughtHistory := gen.1.thoughtHistory ++ [record]
          branches := updateBranches gen.1.branches args
          originalQuery := gen.1.originalQuery
          lastThoughtTimestamp := some now }
      response :=
        ⟨[⟨"text", .payload (mkResponsePayload args generatedThought toolRequest)⟩], none⟩
      modelInvoked := true }

/-! The multi-backend combiner (src/modules/sequential/index.ts). -/

/-- The model-selection directive. -/
inductive ModelType where
  | gemini
  | deepseek
  | all
deriving DecidableEq

/-- What `JSON.parse` recovers from a response text: the `thought` and
`suggestedToolUse` properties, absent fields reading as `undefined`.  A
`plain` text is a catch-block `Error: ...` string, which is not valid JSON
and throws. -/
structure ParsedData where
  thought : Option String
  suggestedToolUse : Option ToolUseMsg
deriving DecidableEq

/-- `JSON.parse` over a response text. -/
def parseRespText : RespText → Except String ParsedData
  | .payload p => .ok ⟨some p.thought, p.suggestedToolUse⟩
  | .failed _ _ => .ok ⟨none, none⟩
  | .parseFailed _ _ _ => .ok ⟨none, none⟩
  | .bothFailed _ _ _ _ => .ok ⟨none, none⟩
  | .plain s => .error ("SyntaxError: Unexpected token in JSON: " ++ s)

/-- `result.content[0].text` (the combiner only reads it on nonempty
content, which the single servers always produce). -/
def headText (r : McpResponse) : RespText :=
  (r.content.head?.map ContentBlock.text).getD (.plain "")

/-- The parse attempt for one backend inside the combiner's try block:
skipped (yielding nothing) when that backend errored. -/
def parseIfOk (r : McpResponse) : Except String (Option ParsedData) :=
  if boolTruthy r.isError then .ok none else (parseRespText (headText r)).map some

/-- The parse phase of the combiner's `all` branch: each backend that did
not error is parsed, gemini first; a parse throw aborts to the catch. -/
def parseStep (g d : McpResponse) :
    Except String (Option ParsedData × Option ParsedData) :=
  match parseIfOk g with
  | .error e => .error e
  | .ok gd =>
    match parseIfOk d with
    | .error e => .error e
    | .ok dd => .ok (gd, dd)

/-- JSON character escaping for `JSON.stringify` of a string. -/
def jsonEscapeChar (c : Char) : List Char :=
  if c = qD then ['\\', qD]
  else if c = '\\' then ['\\', '\\']
  else if c = '\n' then ['\\', 'n']
  else if c = '\r' then ['\\', 'r']
  else if c = '\t' then ['\\', 't']
  else [c]

/-- `JSON.stringify` of a string value. -/
def jsonEncodeStr (s : String) : String :=
  ⟨[qD] ++ s.data.foldr (fun c acc => jsonEscapeChar c ++ acc) [] ++ [qD]⟩

/-- `JSON.stringify` of a `suggestedToolUse` object (the braces are
written as character escapes). -/
def stringifyToolUse (t : ToolUseMsg) : String :=
  "\x7b" ++ jsonEncodeStr "toolType" ++ ":" ++ jsonEncodeStr t.toolType ++ "," ++
  jsonEncodeStr "query" ++ ":" ++ jsonEncodeStr t.query ++ "," ++
  jsonEncodeStr "message" ++ ":" ++ jsonEncodeStr t.message ++ "\x7d"

/-- The `- Suggested Tool:` rendering in a combined block. -/
def suggestedToolText (tool : Option ToolUseMsg) : String :=
  match tool with
  | some t => stringifyToolUse t
  | none => "None"

/-- The Gemini transcript block before the outer `.trim()`. -/
def geminiBlockCore (args : SequentialArgs) (thoughtText : String)
    (tool : Option ToolUseMsg) : String :=
  "=== GEMINI (THOUGHT #" ++ toString args.thoughtNumber ++ ") ===\n\n" ++
  thoughtText ++
  "\n\nMETA:\n- Thought Number: " ++ toString args.thoughtNumber ++
  "\n- Total Thoughts: " ++ toString args.totalThoughts ++
  "\n- Next Thought Needed: " ++ boolText args.nextThoughtNeeded ++
  "\n- Suggested Tool: " ++ suggestedToolText tool

/-- The Gemini transcript block (`geminiResponseText`). -/
def geminiBlockStr (args : SequentialArgs) (thoughtText : String)
    (tool : Option ToolUseMsg) : String :=
  jsTrim ("\n" ++ geminiBlockCore args thoughtText tool ++ "\n")

/-- The DeepSeek transcript block before the outer `.trim()`. -/
def deepseekBlockCore (args : SequentialArgs) (thoughtText : String)
    (tool : Option ToolUseMsg) : String :=
  "=== DEEPSEEK (THOUGHT #" ++ toString args.thoughtNumber ++ ") ===\n\n" ++
  thoughtText ++
  "\n\nMETA:\n- Thought Number: " ++ toString args.thoughtNumber ++
  "\n- Total Thoughts: " ++ toString args.totalThoughts ++
  "\n- Next Thought Needed: " ++ boolText args.nextThoughtNeeded ++
  "\n- Suggested Tool: " ++ suggestedToolText tool

/-- The DeepSeek transcript block (`deepseekResponseText`). -/
def deepseekBlockStr (args : SequentialArgs) (thoughtText : String)
    (tool : Option ToolUseMsg) : String :=
  jsTrim ("\n" ++ deepseekBlockCore args thoughtText tool ++ "\n")

/-- The Gemini failure placeholder of the combiner. -/
def geminiPlaceholder : String := "Gemini processing failed"

/-- The DeepSeek failure placeholder of the combiner. -/
def deepseekPlaceholder : String := "DeepSeek processing failed"

/-- The merge logic of the combiner's `all` branch
(src/modules/sequential/index.ts, lines 66-171), as a function of the two
settled backend responses. -/
def combineResults (args : SequentialArgs) (geminiResult deepseekResult : McpResponse) :
    McpResponse :=
  if boolTruthy geminiResult.isError ∧ boolTruthy deepseekResult.isError then
    ⟨[⟨"text", .bothFailed "Both models returned errors"
        (headText geminiResult) (headText deepseekResult) "failed"⟩], some true⟩
  else
    match parseStep geminiResult deepseekResult with
    | .ok (geminiData, deepseekData) =>
      let geminiThought := jsOrElse (geminiData.bind ParsedData.thought) geminiPlaceholder
      let deepseekThought := jsOrElse (deepseekData.bind ParsedData.thought) deepseekPlaceholder
      ⟨[⟨"text", .plain (geminiBlockStr args geminiThought
          (geminiData.bind ParsedData.suggestedToolUse))⟩,
        ⟨"text", .plain (deepseekBlockStr args deepseekThought
          (deepseekData.bind ParsedData.suggestedToolUse))⟩], none⟩
    | .error parseErr =>
      ⟨[⟨"text", .parseFailed "Error parsing model results" parseErr "failed"⟩], some true⟩

/-- The outcome of one combined call: both backend states and the merged
response. -/
structure CombinedResult where
  geminiState : ServerState
  deepseekState : ServerState
  response : McpResponse

/-- Embedding of `CombinedSequentialThinkingServer.processSequentialThinking`:
delegate to a single backend, or fan out to both and merge. -/
def combinedProcess (mt : ModelType) (gState dState : ServerState)
    (args : SequentialArgs) (gApi dApi : Except String (Option String))
    (now : Nat) : CombinedResult :=
  match mt with
  | .gemini =>
    let r := processSequentialThinking gState args gApi now
    ⟨r.state, dState, r.response⟩
  | .deepseek =>
    let r := processSequentialThinking dState args dApi now
    ⟨gState, r.state, r.response⟩
  | .all =>
    let g := processSequentialThinking gState args gApi now
    let d := processSequentialThinking dState args dApi now
    ⟨g.state, d.state, combineResults args g.response d.response⟩

/-! Concrete fixtures used by witnesses and counterexamples. -/

/-- A committed record whose `currentThinking` is `dup`. -/
def exThought : ThoughtData :=
  ⟨"q", "dup", 1, 3, true, "t1", none, none, none, none, "analytical", none, none⟩

/-- A session whose last committed record has `currentThinking = "dup"`. -/
def exDupState : ServerState :=
  ⟨[exThought], fun _ => [], "q", some 0⟩

/-- First call of the C5 counterexample session. -/
def c5Run1 : StepResult :=
  processSequentialThinking initialState (mkArgs "A" 1 3 true) (.ok (some "T1")) 0

/-- Second call of the C5 counterexample session: different
`currentThinking`, again `thoughtNumber = 1`. -/
def c5Run2 : StepResult :=
  processSequentialThinking c5Run1.state (mkArgs "B" 1 3 true) (.ok (some "T2")) 10

instance : IsTotal ThoughtData (fun a b => b.thoughtNumber ≤ a.thoughtNumber) :=
  ⟨fun a b => Nat.le_total b.thoughtNumber a.thoughtNumber⟩

instance : IsTrans ThoughtData (fun a b => b.thoughtNumber ≤ a.thoughtNumber) :=
  ⟨fun _ _ _ h1 h2 => Nat.le_trans h2 h1⟩

instance : IsTotal ThoughtData (fun a b => a.thoughtNumber ≤ b.thoughtNumber) :=
  ⟨fun a b => Nat.le_total a.thoughtNumber b.thoughtNumber⟩

instance : IsTrans ThoughtData (fun a b => a.thoughtNumber ≤ b.thoughtNumber) :=
  ⟨fun _ _ _ h1 h2 => Nat.le_trans h1 h2⟩

/-- Arguments of the C7 counterexample: a branching, non-revision call. -/
def c7Args : SequentialArgs :=
  { mkArgs "start" 2 3 true with branchFromThought := some 2, branchId := some "b1" }

/-- Three committed records numbered 1, 2, 3 (C6 witness history). -/
def c6History : List ThoughtData :=
  [⟨"q", "a", 1, 3, true, "t1", none, none, none, none, "analytical", none, none⟩,
   ⟨"q", "b", 2, 3, true, "t2", none, none, none, none, "analytical", none, none⟩,
   ⟨"q", "c", 3, 3, true, "t3", none, none, none, none, "analytical", none, none⟩]

/-- A success-shaped backend response whose payload carries an empty
`thought` (C10 witness input). -/
def c10EmptyThoughtResp : McpResponse :=
  ⟨[⟨"text", .payload ⟨"", 1, 1, true, none, "Use this thought as input for next call"⟩⟩], none⟩

/-! Shared helper lemmas. -/

theorem leadsWith_append (pat rest : List Char) : leadsWith pat (pat ++ rest) = true := by
  induction pat with
  | nil => rfl
  | cons p ps ih => simp [leadsWith, ih]

theorem containsChars_nil_pat (l : List Char) : containsChars [] l = true := by
  cases l with
  | nil => rfl
  | cons c cs => simp [containsChars, leadsWith]

theorem containsChars_append (pat a b : List Char) :
    containsChars pat (a ++ (pat ++ b)) = true := by
  induction a with
  | nil =>
    cases pat with
    | nil => simpa using containsChars_nil_pat b
    | cons p ps =>
      simp only [List.nil_append, List.cons_append, containsChars, Bool.or_eq_true]
      left
      have := leadsWith_append (p :: ps) b
      simpa using this
  | cons c a ih =>
    cases pat with
    | nil => simp [containsChars_nil_pat]
    | cons p ps =>
      simp only [List.cons_append, containsChars, Bool.or_eq_true]
      right
      simpa using ih

theorem containsStr_of_substrOf {pat s : String} (h : SubstrOf pat s) :
    containsStr s pat = true := by
  obtain ⟨a, b, rfl⟩ := h
  show containsChars pat.data (a ++ pat ++ b).data = true
  have : (a ++ pat ++ b).data = a.data ++ (pat.data ++ b.data) := by
    simp [String.data_append]
  rw [this]
  exact containsChars_append _ _ _

theorem substrOf_trans_append {pat x : String} {s : String}
    (h : SubstrOf (x ++ pat) s) : SubstrOf pat s := by
  obtain ⟨a, b, rfl⟩ := h
  exact ⟨a ++ x, b, by simp [String.append_assoc]⟩

theorem trimChars_wrap (c d : Char) (t1 t2 l : List Char)
    (h1 : l = c :: t1) (h2 : l.reverse = d :: t2)
    (hc : wsChar c = false) (hd : wsChar d = false) :
    trimChars ('\n' :: (l ++ ['\n'])) = l := by
  have hwnl : wsChar '\n' = true := rfl
  have e1 : List.dropWhile wsChar ('\n' :: (l ++ ['\n'])) = l ++ ['\n'] := by
    rw [List.dropWhile_cons, if_pos hwnl, h1, List.cons_append, List.dropWhile_cons,
      if_neg (by simp [hc])]
  have e2 : (l ++ ['\n']).reverse = '\n' :: l.reverse := by
    rw [List.reverse_append]
    rfl
  have e3 : List.dropWhile wsChar l.reverse = l.reverse := by
    rw [h2, List.dropWhile_cons, if_neg (by simp [hd])]
  unfold trimChars
  rw [e1, e2, List.dropWhile_cons, if_pos hwnl, e3, List.reverse_reverse]

theorem jsTrim_wrap (core : String) (c d : Char) (t1 t2 : List Char)
    (h1 : core.data = c :: t1) (h2 : core.data.reverse = d :: t2)
    (hc : wsChar c = false) (hd : wsChar d = false) :
    jsTrim ("\n" ++ core ++ "\n") = core := by
  apply String.ext
  show trimChars ("\n" ++ core ++ "\n").data = core.data
  have hdata : ("\n" ++ core ++ "\n").data = '\n' :: (core.data ++ ['\n']) := by
    simp [String.data_append]
  rw [hdata]
  exact trimChars_wrap c d t1 t2 core.data h1 h2 hc hd

/-- Characterization of a call that passes the similarity guard: the whole
per-call cycle written out. -/
theorem process_pass (st : ServerState) (args : SequentialArgs)
    (api : Except String (Option String)) (now : Nat)
    (h : isThinkingTooSimilar st args.currentThinking = false) :
    processSequentialThinking st args api now =
      { state :=
          { thoughtHistory := (updateOriginalQuery st args).thoughtHistory ++
              [mkThoughtRecord (updateOriginalQuery st args) args (generatedThoughtOf api)
                (detectToolRequest (generatedThoughtOf api))]
            branches := updateBranches (updateOriginalQuery st args).branches args
            originalQuery := (updateOriginalQuery st args).originalQuery
            lastThoughtTimestamp := some now }
        response :=
          ⟨[⟨"text", .payload (mkResponsePayload args (generatedThoughtOf api)
              (detectToolRequest (generatedThoughtOf api)))⟩], none⟩
        modelInvoked := true } := by
  unfold processSequentialThinking
  rw [if_neg (by simp [h])]
  rfl

theorem updateOriginalQuery_thoughtHistory (st : ServerState) (args : SequentialArgs) :
    (updateOriginalQuery st args).thoughtHistory = st.thoughtHistory := by
  unfold updateOriginalQuery
  split <;> rfl

theorem updateOriginalQuery_originalQuery (st : ServerState) (args : SequentialArgs) :
    (updateOriginalQuery st args).originalQuery =
      (if args.thoughtNumber = 1 ∨ st.originalQuery = "" then args.currentThinking
       else st.originalQuery) := by
  unfold updateOriginalQuery
  split <;> rfl

/-! Claim theorems. -/

/-- C1: a call whose `currentThinking` equals the previous committed
record's `currentThinking` returns the structured `status="failed"`
response with `isError` set, invokes no model, and leaves the session state
untouched; a session with empty history never fails the guard. -/
theorem c1_similarity_guard :
    (∀ (st : ServerState) (args : SequentialArgs) (api : Except String (Option String))
        (now : Nat) (last : ThoughtData),
      st.thoughtHistory.getLast? = some last →
      args.currentThinking = last.currentThinking →
      processSequentialThinking st args api now = ⟨st, similarityFailedResponse, false⟩) ∧
    similarityFailedResponse.isError = some true ∧
    similarityFailedResponse.content = [⟨"text", .failed similarityErrorText "failed"⟩] ∧
    (∀ (st : ServerState) (args : SequentialArgs) (api : Except String (Option String))
        (now : Nat),
      st.thoughtHistory = [] →
      isThinkingTooSimilar st args.currentThinking = false ∧
      (processSequentialThinking st args api now).modelInvoked = true) := by
  refine ⟨?_, rfl, rfl, ?_⟩
  · intro st args api now last h1 h2
    have hg : isThinkingTooSimilar st args.currentThinking = true := by
      unfold isThinkingTooSimilar
      rw [h1, h2]
      simp
    unfold processSequentialThinking
    rw [if_pos hg]
  · intro st args api now h
    have hg : isThinkingTooSimilar st args.currentThinking = false := by
      unfold isThinkingTooSimilar
      rw [h]
      rfl
    refine ⟨hg, ?_⟩
    unfold processSequentialThinking
    rw [if_neg (by simp [hg])]

/-- C1 witness: the guard fires on a concrete session whose last record has
`currentThinking = "dup"`. -/
theorem c1_similarity_guard_witness :
    processSequentialThinking exDupState (mkArgs "dup" 2 3 true) (.ok (some "X")) 7 =
      ⟨exDupState, similarityFailedResponse, false⟩ :=
  c1_similarity_guard.1 exDupState (mkArgs "dup" 2 3 true) (.ok (some "X")) 7 exThought
    rfl rfl

/-- C2: when the model backend throws, the call still returns a
success-shaped response (no `isError`) whose `thought` is the caught-error
text, and a record carrying that text is appended to the history. -/
theorem c2_backend_failure_committed :
    ∀ (st : ServerState) (args : SequentialArgs) (e : String) (now : Nat),
      isThinkingTooSimilar st args.currentThinking = false →
      (processSequentialThinking st args (.error e) now).response.isError = none ∧
      (∃ p : ThoughtPayload,
        (processSequentialThinking st args (.error e) now).response.content =
          [⟨"text", .payload p⟩] ∧
        p.thought = "Error generating thought: " ++ e) ∧
      (∃ rec : ThoughtData,
        (processSequentialThinking st args (.error e) now).state.thoughtHistory =
          st.thoughtHistory ++ [rec] ∧
        rec.thought = "Error generating thought: " ++ e) ∧
      (processSequentialThinking st args (.error e) now).modelInvoked = true := by
  intro st args e now h
  rw [process_pass st args (.error e) now h]
  refine ⟨rfl,
    ⟨mkResponsePayload args (generatedThoughtOf (.error e))
        (detectToolRequest (generatedThoughtOf (.error e))), rfl, rfl⟩,
    ⟨mkThoughtRecord (updateOriginalQuery st args) args (generatedThoughtOf (.error e))
        (detectToolRequest (generatedThoughtOf (.error e))), ?_, rfl⟩, rfl⟩
  rw [updateOriginalQuery_thoughtHistory]

/-- C2 witness: a thrown backend error on a fresh session is committed as
an error-text thought. -/
theorem c2_backend_failure_committed_witness :
    (processSequentialThinking initialState (mkArgs "A" 1 3 true) (.error "boom") 3).response.isError = none ∧
    (∃ p : ThoughtPayload,
      (processSequentialThinking initialState (mkArgs "A" 1 3 true) (.error "boom") 3).response.content =
        [⟨"text", .payload p⟩] ∧
      p.thought = "Error generating thought: " ++ "boom") ∧
    (∃ rec : ThoughtData,
      (processSequentialThinking initialState (mkArgs "A" 1 3 true) (.error "boom") 3).state.thoughtHistory =
        initialState.thoughtHistory ++ [rec] ∧
      rec.thought = "Error generating thought: " ++ "boom") ∧
    (processSequentialThinking initialState (mkArgs "A" 1 3 true) (.error "boom") 3).modelInvoked = true :=
  c2_backend_failure_committed initialState (mkArgs "A" 1 3 true) "boom" 3 rfl

/-- C5 counterexample: `originalQuery` is not immutable.  The first
committed record's `currentThinking` is `"A"` and `originalQuery` is first
set to `"A"`, but a second successful call with `thoughtNumber = 1` (and
distinct `currentThinking = "B"`) overwrites it to `"B"`. -/
theorem c5_counterexample :
    c5Run1.state.originalQuery = "A" ∧
    c5Run1.state.thoughtHistory.map ThoughtData.currentThinking = ["A"] ∧
    c5Run2.response.isError = none ∧
    c5Run2.state.originalQuery = "B" ∧ ("A" : String) ≠ "B" := by
  refine ⟨rfl, rfl, rfl, rfl, by decide⟩

/-- C5 amended: `originalQuery` is set from the incoming `currentThinking`
on every successful call whose `thoughtNumber` is 1 or that arrives while
the stored value is still empty (in particular on the session's first
call); a successful call with `thoughtNumber ≠ 1` and a non-empty stored
value leaves it unchanged.  It is overwritten — not set exactly once — by
any later call with `thoughtNumber = 1`. -/
theorem c5_originalQuery_update :
    (∀ (st : ServerState) (args : SequentialArgs) (api : Except String (Option String))
        (now : Nat),
      isThinkingTooSimilar st args.currentThinking = false →
      (processSequentialThinking st args api now).state.originalQuery =
        (if args.thoughtNumber = 1 ∨ st.originalQuery = "" then args.currentThinking
         else st.originalQuery)) ∧
    (∀ (st : ServerState) (args : SequentialArgs) (api : Except String (Option String))
        (now : Nat),
      isThinkingTooSimilar st args.currentThinking = false →
      args.thoughtNumber ≠ 1 → st.originalQuery ≠ "" →
      (processSequentialThinking st args api now).state.originalQuery =
        st.originalQuery) := by
  constructor
  · intro st args api now h
    rw [process_pass st args api now h]
    exact updateOriginalQuery_originalQuery st args
  · intro st args api now h hn hq
    rw [process_pass st args api now h]
    show (updateOriginalQuery st args).originalQuery = st.originalQuery
    rw [updateOriginalQuery_originalQuery, if_neg (by simp [hn, hq])]

/-- C5 amended witness: a call with `thoughtNumber = 2` on a session with a
non-empty `originalQuery` keeps it. -/
theorem c5_originalQuery_update_witness :
    (processSequentialThinking exDupState (mkArgs "next" 2 3 true) (.ok (some "T")) 4).state.originalQuery =
      exDupState.originalQuery :=
  c5_originalQuery_update.2 exDupState (mkArgs "next" 2 3 true) (.ok (some "T")) 4
    rfl (by decide) (by decide)

/-! Transcript-block lemmas: the outer `.trim()` of the combined blocks
removes exactly the template's outer newlines, so each block equals its
core, and the thought slot is a contiguous substring. -/

theorem string_split_last (s X : String) {d : Char} {r : List Char}
    (h : X.data.reverse = d :: r) :
    (s ++ X).data.reverse = d :: (r ++ s.data.reverse) := by
  simp [String.data_append, List.reverse_append, h]

theorem revHead_append (s X : String) (d : Char)
    (h : ∃ r, X.data.reverse = d :: r) :
    ∃ r, (s ++ X).data.reverse = d :: r := by
  obtain ⟨r, hr⟩ := h
  exact ⟨r ++ s.data.reverse, string_split_last s X hr⟩

theorem data_head_append (s X : String) (c : Char)
    (h : ∃ r, s.data = c :: r) :
    ∃ r, (s ++ X).data = c :: r := by
  obtain ⟨r, hr⟩ := h
  exact ⟨r ++ X.data, by simp [String.data_append, hr]⟩

theorem suggestedToolText_last (tool : Option ToolUseMsg) :
    ∃ d r, (suggestedToolText tool).data.reverse = d :: r ∧ wsChar d = false := by
  cases tool with
  | none => exact ⟨'e', ['n', 'o', 'N'], rfl, rfl⟩
  | some t =>
    have h : ∃ r, (stringifyToolUse t).data.reverse = '\x7d' :: r := by
      unfold stringifyToolUse
      repeat apply revHead_append
      exact ⟨[], rfl⟩
    obtain ⟨r, hr⟩ := h
    exact ⟨'\x7d', r, hr, rfl⟩

theorem geminiBlockCore_head (args : SequentialArgs) (th : String)
    (tool : Option ToolUseMsg) :
    ∃ r, (geminiBlockCore args th tool).data = '=' :: r := by
  unfold geminiBlockCore
  repeat apply data_head_append
  exact ⟨("== GEMINI (THOUGHT #" : String).data, rfl⟩

theorem geminiBlockCore_last (args : SequentialArgs) (th : String)
    (tool : Option ToolUseMsg) :
    ∃ d r, (geminiBlockCore args th tool).data.reverse = d :: r ∧ wsChar d = false := by
  obtain ⟨d, r, hr, hd⟩ := suggestedToolText_last tool
  have h : ∃ r2, (geminiBlockCore args th tool).data.reverse = d :: r2 := by
    unfold geminiBlockCore
    repeat apply revHead_append
    exact ⟨r, hr⟩
  obtain ⟨r2, hr2⟩ := h
  exact ⟨d, r2, hr2, hd⟩

theorem geminiBlockStr_eq (args : SequentialArgs) (th : String)
    (tool : Option ToolUseMsg) :
    geminiBlockStr args th tool = geminiBlockCore args th tool := by
  obtain ⟨r1, h1⟩ := geminiBlockCore_head args th tool
  obtain ⟨d, r2, h2, hd⟩ := geminiBlockCore_last args th tool
  exact jsTrim_wrap _ '=' d r1 r2 h1 h2 rfl hd

theorem deepseekBlockCore_head (args : SequentialArgs) (th : String)
    (tool : Option ToolUseMsg) :
    ∃ r, (deepseekBlockCore args th tool).data = '=' :: r := by
  unfold deepseekBlockCore
  repeat apply data_head_append
  exact ⟨("== DEEPSEEK (THOUGHT #" : String).data, rfl⟩

theorem deepseekBlockCore_last (args : SequentialArgs) (th : String)
    (tool : Option ToolUseMsg) :
    ∃ d r, (deepseekBlockCore args th tool).data.reverse = d :: r ∧ wsChar d = false := by
  obtain ⟨d, r, hr, hd⟩ := suggestedToolText_last tool
  have h : ∃ r2, (deepseekBlockCore args th tool).data.reverse = d :: r2 := by
    unfold deepseekBlockCore
    repeat apply revHead_append
    exact ⟨r, hr⟩
  obtain ⟨r2, hr2⟩ := h
  exact ⟨d, r2, hr2, hd⟩

theorem deepseekBlockStr_eq (args : SequentialArgs) (th : String)
    (tool : Option ToolUseMsg) :
    deepseekBlockStr args th tool = deepseekBlockCore args th tool := by
  obtain ⟨r1, h1⟩ := deepseekBlockCore_head args th tool
  obtain ⟨d, r2, h2, hd⟩ := deepseekBlockCore_last args th tool
  exact jsTrim_wrap _ '=' d r1 r2 h1 h2 rfl hd

theorem substrOf_empty (s : String) : SubstrOf "" s := ⟨"", s, rfl⟩

theorem geminiBlock_contains_thought (args : SequentialArgs) (th : String)
    (tool : Option ToolUseMsg) : SubstrOf th (geminiBlockStr args th tool) := by
  rw [geminiBlockStr_eq]
  refine ⟨"=== GEMINI (THOUGHT #" ++ toString args.thoughtNumber ++ ") ===\n\n",
    "\n\nMETA:\n- Thought Number: " ++ toString args.thoughtNumber ++
      "\n- Total Thoughts: " ++ toString args.totalThoughts ++
      "\n- Next Thought Needed: " ++ boolText args.nextThoughtNeeded ++
      "\n- Suggested Tool: " ++ suggestedToolText tool, ?_⟩
  unfold geminiBlockCore
  simp [String.append_assoc]

theorem deepseekBlock_contains_thought (args : SequentialArgs) (th : String)
    (tool : Option ToolUseMsg) : SubstrOf th (deepseekBlockStr args th tool) := by
  rw [deepseekBlockStr_eq]
  refine ⟨"=== DEEPSEEK (THOUGHT #" ++ toString args.thoughtNumber ++ ") ===\n\n",
    "\n\nMETA:\n- Thought Number: " ++ toString args.thoughtNumber ++
      "\n- Total Thoughts: " ++ toString args.totalThoughts ++
      "\n- Next Thought Needed: " ++ boolText args.nextThoughtNeeded ++
      "\n- Suggested Tool: " ++ suggestedToolText tool, ?_⟩
  unfold deepseekBlockCore
  simp [String.append_assoc]

theorem geminiBlock_contains_label (args : SequentialArgs) (th : String)
    (tool : Option ToolUseMsg) : SubstrOf "=== GEMINI" (geminiBlockStr args th tool) := by
  rw [geminiBlockStr_eq]
  refine ⟨"", " (THOUGHT #" ++ (toString args.thoughtNumber ++ (") ===\n\n" ++ (th ++
    ("\n\nMETA:\n- Thought Number: " ++ (toString args.thoughtNumber ++
    ("\n- Total Thoughts: " ++ (toString args.totalThoughts ++
    ("\n- Next Thought Needed: " ++ (boolText args.nextThoughtNeeded ++
    ("\n- Suggested Tool: " ++ suggestedToolText tool)))))))))), ?_⟩
  apply String.ext
  unfold geminiBlockCore
  simp [String.data_append, List.append_assoc]

theorem deepseekBlock_contains_label (args : SequentialArgs) (th : String)
    (tool : Option ToolUseMsg) : SubstrOf "=== DEEPSEEK" (deepseekBlockStr args th tool) := by
  rw [deepseekBlockStr_eq]
  refine ⟨"", " (THOUGHT #" ++ (toString args.thoughtNumber ++ (") ===\n\n" ++ (th ++
    ("\n\nMETA:\n- Thought Number: " ++ (toString args.thoughtNumber ++
    ("\n- Total Thoughts: " ++ (toString args.totalThoughts ++
    ("\n- Next Thought Needed: " ++ (boolText args.nextThoughtNeeded ++
    ("\n- Suggested Tool: " ++ suggestedToolText tool)))))))))), ?_⟩
  apply String.ext
  unfold deepseekBlockCore
  simp [String.data_append, List.append_assoc]

theorem geminiBlock_contains_orig (args : SequentialArgs) (x dflt : String)
    (tool : Option ToolUseMsg) :
    SubstrOf x (geminiBlockStr args (jsOrElse (some x) dflt) tool) := by
  by_cases hx : x = ""
  · subst hx
    exact substrOf_empty _
  · have h : jsOrElse (some x) dflt = x := by simp [jsOrElse, hx]
    rw [h]
    exact geminiBlock_contains_thought args x tool

theorem deepseekBlock_contains_orig (args : SequentialArgs) (x dflt : String)
    (tool : Option ToolUseMsg) :
    SubstrOf x (deepseekBlockStr args (jsOrElse (some x) dflt) tool) := by
  by_cases hx : x = ""
  · subst hx
    exact substrOf_empty _
  · have h : jsOrElse (some x) dflt = x := by simp [jsOrElse, hx]
    rw [h]
    exact deepseekBlock_contains_thought args x tool

/-! Combiner branch characterizations. -/

theorem combineResults_both_fail (args : SequentialArgs) (g d : McpResponse)
    (hg : boolTruthy g.isError = true) (hd : boolTruthy d.isError = true) :
    combineResults args g d =
      ⟨[⟨"text", .bothFailed "Both models returned errors" (headText g) (headText d)
          "failed"⟩], some true⟩ := by
  unfold combineResults
  rw [if_pos ⟨hg, hd⟩]

theorem combineResults_parsed (args : SequentialArgs) (g d : McpResponse)
    (gd dd : Option ParsedData)
    (hne : ¬(boolTruthy g.isError = true ∧ boolTruthy d.isError = true))
    (hg : parseIfOk g = .ok gd) (hd : parseIfOk d = .ok dd) :
    combineResults args g d =
      ⟨[⟨"text", .plain (geminiBlockStr args
          (jsOrElse (gd.bind ParsedData.thought) geminiPlaceholder)
          (gd.bind ParsedData.suggestedToolUse))⟩,
        ⟨"text", .plain (deepseekBlockStr args
          (jsOrElse (dd.bind ParsedData.thought) deepseekPlaceholder)
          (dd.bind ParsedData.suggestedToolUse))⟩], none⟩ := by
  unfold combineResults parseStep
  rw [if_neg hne, hg, hd]

/-- C3: when both fanned-out backends report errors, the combiner returns a
single aggregated error response with `isError` set that embeds each
backend's error text verbatim. -/
theorem c3_combiner_all_errors :
    ∀ (gS dS : ServerState) (args : SequentialArgs)
      (gApi dApi : Except String (Option String)) (now : Nat),
      boolTruthy (processSequentialThinking gS args gApi now).response.isError = true →
      boolTruthy (processSequentialThinking dS args dApi now).response.isError = true →
      (combinedProcess .all gS dS args gApi dApi now).response =
        ⟨[⟨"text", .bothFailed "Both models returned errors"
            (headText (processSequentialThinking gS args gApi now).response)
            (headText (processSequentialThinking dS args dApi now).response) "failed"⟩],
          some true⟩ := by
  intro gS dS args gApi dApi now hg hd
  show combineResults args _ _ = _
  exact combineResults_both_fail args _ _ hg hd

/-- C3 witness: both backends fail their similarity guards on the same
duplicate `currentThinking`; the combiner aggregates both error texts. -/
theorem c3_combiner_all_errors_witness :
    (combinedProcess .all exDupState exDupState (mkArgs "dup" 2 3 true)
        (.ok (some "X")) (.ok (some "Y")) 9).response =
      ⟨[⟨"text", .bothFailed "Both models returned errors"
          (headText (processSequentialThinking exDupState (mkArgs "dup" 2 3 true)
            (.ok (some "X")) 9).response)
          (headText (processSequentialThinking exDupState (mkArgs "dup" 2 3 true)
            (.ok (some "Y")) 9).response) "failed"⟩], some true⟩ :=
  c3_combiner_all_errors exDupState exDupState (mkArgs "dup" 2 3 true)
    (.ok (some "X")) (.ok (some "Y")) 9 rfl rfl

/-- C4: with one backend failing and the other succeeding, the combined
response is returned without the `isError` flag, one labeled block per
backend; the failed backend's block carries its fixed failure placeholder
and the succeeding backend's block carries its real thought text. -/
theorem c4_partial_failure :
    (∀ (gS dS : ServerState) (args : SequentialArgs)
        (gApi dApi : Except String (Option String)) (now : Nat) (p : ThoughtPayload),
      boolTruthy (processSequentialThinking gS args gApi now).response.isError = true →
      (processSequentialThinking dS args dApi now).response.isError = none →
      headText (processSequentialThinking dS args dApi now).response = .payload p →
      (combinedProcess .all gS dS args gApi dApi now).response =
        ⟨[⟨"text", .plain (geminiBlockStr args geminiPlaceholder none)⟩,
          ⟨"text", .plain (deepseekBlockStr args
            (jsOrElse (some p.thought) deepseekPlaceholder) p.suggestedToolUse)⟩],
          none⟩ ∧
      SubstrOf geminiPlaceholder (geminiBlockStr args geminiPlaceholder none) ∧
      SubstrOf p.thought (deepseekBlockStr args
        (jsOrElse (some p.thought) deepseekPlaceholder) p.suggestedToolUse) ∧
      SubstrOf "=== GEMINI" (geminiBlockStr args geminiPlaceholder none) ∧
      SubstrOf "=== DEEPSEEK" (deepseekBlockStr args
        (jsOrElse (some p.thought) deepseekPlaceholder) p.suggestedToolUse)) ∧
    (∀ (gS dS : ServerState) (args : SequentialArgs)
        (gApi dApi : Except String (Option String)) (now : Nat) (p : ThoughtPayload),
      (processSequentialThinking gS args gApi now).response.isError = none →
      headText (processSequentialThinking gS args gApi now).response = .payload p →
      boolTruthy (processSequentialThinking dS args dApi now).response.isError = true →
      (combinedProcess .all gS dS args gApi dApi now).response =
        ⟨[⟨"text", .plain (geminiBlockStr args
            (jsOrElse (some p.thought) geminiPlaceholder) p.suggestedToolUse)⟩,
          ⟨"text", .plain (deepseekBlockStr args deepseekPlaceholder none)⟩],
          none⟩ ∧
      SubstrOf p.thought (geminiBlockStr args
        (jsOrElse (some p.thought) geminiPlaceholder) p.suggestedToolUse) ∧
      SubstrOf deepseekPlaceholder (deepseekBlockStr args deepseekPlaceholder none) ∧
      SubstrOf "=== GEMINI" (geminiBlockStr args
        (jsOrElse (some p.thought) geminiPlaceholder) p.suggestedToolUse) ∧
      SubstrOf "=== DEEPSEEK" (deepseekBlockStr args deepseekPlaceholder none)) := by
  constructor
  · intro gS dS args gApi dApi now p hg hd hp
    have hdt : boolTruthy (processSequentialThinking dS args dApi now).response.isError = false := by
      rw [hd]
      rfl
    refine ⟨?_, geminiBlock_contains_thought args geminiPlaceholder none,
      deepseekBlock_contains_orig args p.thought deepseekPlaceholder p.suggestedToolUse,
      geminiBlock_contains_label args geminiPlaceholder none,
      deepseekBlock_contains_label args _ p.suggestedToolUse⟩
    show combineResults args _ _ = _
    rw [combineResults_parsed args _ _ none (some ⟨some p.thought, p.suggestedToolUse⟩)
      (by simp [hdt]) (by simp [parseIfOk, hg]) (by simp [parseIfOk, hdt, hp, parseRespText, Except.map])]
    rfl
  · intro gS dS args gApi dApi now p hg hp hd
    have hgt : boolTruthy (processSequentialThinking gS args gApi now).response.isError = false := by
      rw [hg]
      rfl
    refine ⟨?_,
      geminiBlock_contains_orig args p.thought geminiPlaceholder p.suggestedToolUse,
      deepseekBlock_contains_thought args deepseekPlaceholder none,
      geminiBlock_contains_label args _ p.suggestedToolUse,
      deepseekBlock_contains_label args deepseekPlaceholder none⟩
    show combineResults args _ _ = _
    rw [combineResults_parsed args _ _ (some ⟨some p.thought, p.suggestedToolUse⟩) none
      (by simp [hgt]) (by simp [parseIfOk, hgt, hp, parseRespText, Except.map]) (by simp [parseIfOk, hd])]
    rfl

/-- C4 witness: gemini fails its similarity guard while deepseek succeeds
with a real thought `"DT"`. -/
theorem c4_partial_failure_witness :
    (combinedProcess .all exDupState initialState (mkArgs "dup" 2 3 true)
        (.ok (some "X")) (.ok (some "DT")) 9).response =
      ⟨[⟨"text", .plain (geminiBlockStr (mkArgs "dup" 2 3 true) geminiPlaceholder none)⟩,
        ⟨"text", .plain (deepseekBlockStr (mkArgs "dup" 2 3 true)
          (jsOrElse (some (mkResponsePayload (mkArgs "dup" 2 3 true) "DT"
            (detectToolRequest "DT")).thought) deepseekPlaceholder)
          (mkResponsePayload (mkArgs "dup" 2 3 true) "DT"
            (detectToolRequest "DT")).suggestedToolUse)⟩], none⟩ :=
  (c4_partial_failure.1 exDupState initialState (mkArgs "dup" 2 3 true)
    (.ok (some "X")) (.ok (some "DT")) 9
    (mkResponsePayload (mkArgs "dup" 2 3 true) "DT" (detectToolRequest "DT"))
    rfl rfl rfl).1

/-- C10: the fixed failure placeholder does not distinguish a failed
backend from a succeeding one whose parsed `thought` is absent or empty:
such a backend's block carries the very same placeholder string that an
errored backend's block carries. -/
theorem c10_placeholder_ambiguity :
    (∀ (args : SequentialArgs) (g d : McpResponse) (gd : ParsedData),
      g.isError = none → parseRespText (headText g) = .ok gd →
      gd.thought = none ∨ gd.thought = some "" →
      boolTruthy d.isError = true →
      combineResults args g d =
        ⟨[⟨"text", .plain (geminiBlockStr args geminiPlaceholder gd.suggestedToolUse)⟩,
          ⟨"text", .plain (deepseekBlockStr args deepseekPlaceholder none)⟩], none⟩) ∧
    (∀ (args : SequentialArgs) (g d : McpResponse) (p : ThoughtPayload),
      boolTruthy g.isError = true → d.isError = none → headText d = .payload p →
      (combineResults args g d).content.head? =
        some ⟨"text", .plain (geminiBlockStr args geminiPlaceholder none)⟩) ∧
    (∀ (args : SequentialArgs) (g d : McpResponse) (gd dd : ParsedData),
      g.isError = none → parseRespText (headText g) = .ok gd →
      d.isError = none → parseRespText (headText d) = .ok dd →
      dd.thought = none ∨ dd.thought = some "" →
      combineResults args g d =
        ⟨[⟨"text", .plain (geminiBlockStr args
            (jsOrElse gd.thought geminiPlaceholder) gd.suggestedToolUse)⟩,
          ⟨"text", .plain (deepseekBlockStr args deepseekPlaceholder
            dd.suggestedToolUse)⟩], none⟩) := by
  refine ⟨?_, ?_, ?_⟩
  · intro args g d gd hg hgp hempty hd
    have hgt : boolTruthy g.isError = false := by rw [hg]; rfl
    rw [combineResults_parsed args g d (some gd) none
      (by simp [hgt]) (by simp [parseIfOk, hgt, hgp, Except.map]) (by simp [parseIfOk, hd])]
    rcases hempty with h | h <;> simp [h, jsOrElse]
  · intro args g d p hg hd hp
    have hdt : boolTruthy d.isError = false := by rw [hd]; rfl
    rw [combineResults_parsed args g d none (some ⟨some p.thought, p.suggestedToolUse⟩)
      (by simp [hdt]) (by simp [parseIfOk, hg]) (by simp [parseIfOk, hdt, hp, parseRespText, Except.map])]
    rfl
  · intro args g d gd dd hg hgp hd hdp hempty
    have hgt : boolTruthy g.isError = false := by rw [hg]; rfl
    have hdt : boolTruthy d.isError = false := by rw [hd]; rfl
    rw [combineResults_parsed args g d (some gd) (some dd)
      (by simp [hgt]) (by simp [parseIfOk, hgt, hgp, Except.map]) (by simp [parseIfOk, hdt, hdp, Except.map])]
    rcases hempty with h | h <;> simp [h, jsOrElse]

/-- C10 witness: a success-shaped gemini response with an empty `thought`
yields the gemini failure placeholder, next to an actually-failed deepseek
whose block carries its own placeholder. -/
theorem c10_placeholder_ambiguity_witness :
    combineResults (mkArgs "x" 1 1 true) c10EmptyThoughtResp similarityFailedResponse =
      ⟨[⟨"text", .plain (geminiBlockStr (mkArgs "x" 1 1 true) geminiPlaceholder none)⟩,
        ⟨"text", .plain (deepseekBlockStr (mkArgs "x" 1 1 true) deepseekPlaceholder
          none)⟩], none⟩ :=
  c10_placeholder_ambiguity.1 (mkArgs "x" 1 1 true) c10EmptyThoughtResp
    similarityFailedResponse ⟨some "", none⟩ rfl rfl (Or.inr rfl) rfl

/-! Sorting lemmas for the previous-thoughts selection (C6). -/

theorem sortDescByNumber_perm (l : List ThoughtData) : (sortDescByNumber l).Perm l :=
  List.perm_insertionSort _ l

theorem sortAscByNumber_perm (l : List ThoughtData) : (sortAscByNumber l).Perm l :=
  List.perm_insertionSort _ l

theorem sortDescByNumber_length (l : List ThoughtData) :
    (sortDescByNumber l).length = l.length :=
  (sortDescByNumber_perm l).length_eq

theorem sortDescByNumber_sorted (l : List ThoughtData) :
    List.Pairwise (fun a b => b.thoughtNumber ≤ a.thoughtNumber) (sortDescByNumber l) :=
  List.sorted_insertionSort _ l

theorem sortAscByNumber_sorted (l : List ThoughtData) :
    List.Pairwise (fun a b => a.thoughtNumber ≤ b.thoughtNumber) (sortAscByNumber l) :=
  List.sorted_insertionSort _ l

/-- C6: for a call with `thoughtNumber > 1`, the prompt's previous-thinking
section consists of exactly the `min 2 available` prior records with the
largest `thoughtNumber` below the current one, rendered oldest-first, and
that section is spliced verbatim into the user prompt — no other prior
records appear. -/
theorem c6_prompt_prior_thoughts :
    ∀ (history : List ThoughtData) (args : SequentialArgs) (originalQuery : String),
      1 < args.thoughtNumber →
      (selectPrevThoughts history args.thoughtNumber).length =
        min 2 (history.filter (fun t => t.thoughtNumber < args.thoughtNumber)).length ∧
      (sortAscByNumber (selectPrevThoughts history args.thoughtNumber)).Perm
        (selectPrevThoughts history args.thoughtNumber) ∧
      (∀ t ∈ sortAscByNumber (selectPrevThoughts history args.thoughtNumber),
        t ∈ history ∧ t.thoughtNumber < args.thoughtNumber) ∧
      (∀ t ∈ history, t.thoughtNumber < args.thoughtNumber →
        t ∉ selectPrevThoughts history args.thoughtNumber →
        ∀ u ∈ selectPrevThoughts history args.thoughtNumber,
          t.thoughtNumber ≤ u.thoughtNumber) ∧
      List.Pairwise (fun a b => a.thoughtNumber ≤ b.thoughtNumber)
        (sortAscByNumber (selectPrevThoughts history args.thoughtNumber)) ∧
      (selectPrevThoughts history args.thoughtNumber ≠ [] →
        previousThoughtsSection history args.thoughtNumber =
          "\n\nPrevious thinking:\n" ++
            String.intercalate "\n\n"
              ((sortAscByNumber (selectPrevThoughts history args.thoughtNumber)).map
                renderPrevThought) ++ "\n\n") ∧
      SubstrOf (previousThoughtsSection history args.thoughtNumber)
        (openRouterUserPrompt originalQuery history args) := by
  intro history args originalQuery hn
  refine ⟨?_, sortAscByNumber_perm _, ?_, ?_, sortAscByNumber_sorted _, ?_, ?_⟩
  · show ((sortDescByNumber _).take 2).length = _
    rw [List.length_take, sortDescByNumber_length]
  · intro t ht
    have h1 : t ∈ selectPrevThoughts history args.thoughtNumber :=
      ((sortAscByNumber_perm _).mem_iff).mp ht
    have h2 : t ∈ sortDescByNumber
        (history.filter (fun t => t.thoughtNumber < args.thoughtNumber)) :=
      (List.take_sublist 2 _).mem h1
    have h3 : t ∈ history.filter (fun t => t.thoughtNumber < args.thoughtNumber) :=
      ((sortDescByNumber_perm _).mem_iff).mp h2
    have h4 := List.mem_filter.mp h3
    exact ⟨h4.1, by simpa using h4.2⟩
  · intro t ht hlt hnot u hu
    have h3 : t ∈ history.filter (fun t => t.thoughtNumber < args.thoughtNumber) :=
      List.mem_filter.mpr ⟨ht, by simpa using hlt⟩
    have h2 : t ∈ sortDescByNumber
        (history.filter (fun t => t.thoughtNumber < args.thoughtNumber)) :=
      ((sortDescByNumber_perm _).mem_iff).mpr h3
    have hp := sortDescByNumber_sorted
      (history.filter (fun t => t.thoughtNumber < args.thoughtNumber))
    rw [← List.take_append_drop 2 (sortDescByNumber
      (history.filter (fun t => t.thoughtNumber < args.thoughtNumber)))] at hp h2
    have hsplit := List.pairwise_append.mp hp
    rcases List.mem_append.mp h2 with hin | hdrop
    · exact absurd hin hnot
    · exact hsplit.2.2 u hu t hdrop
  · intro hne
    unfold previousThoughtsSection
    rw [if_pos hn]
    show (if (selectPrevThoughts history args.thoughtNumber).length > 0 then _ else _) = _
    rw [if_pos (List.length_pos.mpr hne)]
  · refine ⟨"\n**Sequential Thinking Process - Thought #" ++ toString args.thoughtNumber ++
      " of " ++ toString args.totalThoughts ++ "**\n\n**Original Request:** " ++
      originalQuery ++ userContextSection args.userContext ++ "**Current Thinking:** " ++
      args.currentThinking ++ "\n\n" ++ introOf args,
      externalToolInfoOf args ++ endingOf args ++
      "\n\n**Your Task for This Thought:**\nProvide the next logical step in our reasoning process. Consider the user context (if provided), previous thoughts, and current thinking to advance our understanding.\n\n" ++
      constraintsOf args ++
      "\n\nYour response should be a cohesive thought that moves our analysis forward.\n", ?_⟩
    unfold openRouterUserPrompt
    simp [String.append_assoc]

/-- C6 witness: a call with `thoughtNumber = 3` over a history numbered
1, 2, 3. -/
theorem c6_prompt_prior_thoughts_witness :
    (selectPrevThoughts c6History 3).length =
      min 2 (c6History.filter (fun t => t.thoughtNumber < 3)).length ∧
    (sortAscByNumber (selectPrevThoughts c6History 3)).Perm
      (selectPrevThoughts c6History 3) ∧
    (∀ t ∈ sortAscByNumber (selectPrevThoughts c6History 3),
      t ∈ c6History ∧ t.thoughtNumber < 3) ∧
    (∀ t ∈ c6History, t.thoughtNumber < 3 →
      t ∉ selectPrevThoughts c6History 3 →
      ∀ u ∈ selectPrevThoughts c6History 3, t.thoughtNumber ≤ u.thoughtNumber) ∧
    List.Pairwise (fun a b => a.thoughtNumber ≤ b.thoughtNumber)
      (sortAscByNumber (selectPrevThoughts c6History 3)) ∧
    (selectPrevThoughts c6History 3 ≠ [] →
      previousThoughtsSection c6History 3 =
        "\n\nPrevious thinking:\n" ++
          String.intercalate "\n\n"
            ((sortAscByNumber (selectPrevThoughts c6History 3)).map renderPrevThought) ++
          "\n\n") ∧
    SubstrOf (previousThoughtsSection c6History 3)
      (openRouterUserPrompt "q" c6History (mkArgs "next" 3 3 true)) :=
  c6_prompt_prior_thoughts c6History (mkArgs "next" 3 3 true) "q" (by decide)

/-! Intro-sentence characterizations for C7. -/

theorem introOf_revision (args : SequentialArgs) (m : Nat)
    (h1 : args.isRevision = some true) (h2 : args.revisesThought = some m) :
    introOf args =
      (if args.thoughtNumber = 1 then "This is the first thought in our analysis."
       else "This is Thought #" ++ toString args.thoughtNumber ++
         " in our sequential analysis.") ++
      (" This revises Thought #" ++ toString m ++ ".") := by
  unfold introOf
  rw [h1, h2]
  simp [boolTruthy, optNatText]

theorem geminiIntroOf_revision (args : SequentialArgs) (m : Nat)
    (h1 : args.isRevision = some true) (h2 : args.revisesThought = some m) :
    geminiIntroOf args =
      (if args.thoughtNumber = 1 then "This is the first thought in our analysis."
       else "This is Thought #" ++ toString args.thoughtNumber ++
         " in our sequential analysis.") ++
      (" This revises Thought #" ++ toString m ++ ".") := by
  unfold geminiIntroOf
  rw [h1, h2]
  simp [boolTruthy, optNatText]

theorem geminiIntroOf_branch (args : SequentialArgs) (b : Nat)
    (h1 : boolTruthy args.isRevision = false) (h2 : args.branchFromThought = some b)
    (h3 : b ≠ 0) :
    geminiIntroOf args =
      (if args.thoughtNumber = 1 then "This is the first thought in our analysis."
       else "This is Thought #" ++ toString args.thoughtNumber ++
         " in our sequential analysis.") ++
      (" This branches from Thought #" ++ toString b ++ ".") := by
  unfold geminiIntroOf
  rw [h1, h2]
  simp [natTruthy, optNatText, h3]

/-- C7 counterexample: the OpenRouter prompt assembler never emits a branch
sentence — a branching, non-revision call's assembled prompt does not
contain "This branches from Thought #2.". -/
theorem c7_counterexample :
    ¬ SubstrOf "This branches from Thought #2."
      (openRouterUserPrompt "start" [] c7Args) := by
  intro h
  exact absurd (containsStr_of_substrOf h) (by decide)

/-- C7 amended: the revision sentence is appended by both prompt
assemblers, but only the Gemini assembler (google-ai.ts) appends the branch
sentence; the OpenRouter assembler drops it (see the counterexample). -/
theorem c7_revision_branch_sentences :
    (∀ (originalQuery : String) (history : List ThoughtData) (args : SequentialArgs)
        (m : Nat),
      args.isRevision = some true → args.revisesThought = some m →
      SubstrOf ("This revises Thought #" ++ toString m ++ ".")
        (openRouterUserPrompt originalQuery history args)) ∧
    (∀ (originalQuery : String) (history : List ThoughtData) (args : SequentialArgs)
        (m : Nat),
      args.isRevision = some true → args.revisesThought = some m →
      SubstrOf ("This revises Thought #" ++ toString m ++ ".")
        (geminiPrompt originalQuery history args)) ∧
    (∀ (originalQuery : String) (history : List ThoughtData) (args : SequentialArgs)
        (b : Nat),
      boolTruthy args.isRevision = false → args.branchFromThought = some b → b ≠ 0 →
      SubstrOf ("This branches from Thought #" ++ toString b ++ ".")
        (geminiPrompt originalQuery history args)) := by
  refine ⟨?_, ?_, ?_⟩
  · intro originalQuery history args m h1 h2
    refine ⟨"\n**Sequential Thinking Process - Thought #" ++ toString args.thoughtNumber ++
      " of " ++ toString args.totalThoughts ++ "**\n\n**Original Request:** " ++
      originalQuery ++ userContextSection args.userContext ++ "**Current Thinking:** " ++
      args.currentThinking ++ "\n\n" ++
      (if args.thoughtNumber = 1 then "This is the first thought in our analysis."
       else "This is Thought #" ++ toString args.thoughtNumber ++
         " in our sequential analysis.") ++ " ",
      previousThoughtsSection history args.thoughtNumber ++ externalToolInfoOf args ++
      endingOf args ++
      "\n\n**Your Task for This Thought:**\nProvide the next logical step in our reasoning process. Consider the user context (if provided), previous thoughts, and current thinking to advance our understanding.\n\n" ++
      constraintsOf args ++
      "\n\nYour response should be a cohesive thought that moves our analysis forward.\n",
      ?_⟩
    unfold openRouterUserPrompt
    rw [introOf_revision args m h1 h2,
      show (" This revises Thought #" : String) = " " ++ "This revises Thought #" from rfl]
    simp only [String.append_assoc]
  · intro originalQuery history args m h1 h2
    refine ⟨"\n**Your Role:** You are an AI assistant analyzing a complex problem through sequential thinking. This is Thought #" ++
      toString args.thoughtNumber ++ " of " ++ toString args.totalThoughts ++
      ".\n\n**Original Request:** " ++ originalQuery ++
      geminiUserContextSection args.userContext ++ "**Current Thinking:** " ++
      args.currentThinking ++ "\n\n" ++
      (if args.thoughtNumber = 1 then "This is the first thought in our analysis."
       else "This is Thought #" ++ toString args.thoughtNumber ++
         " in our sequential analysis.") ++ " ",
      previousThoughtsSection history args.thoughtNumber ++ externalToolInfoOf args ++
      endingOf args ++
      "\n\n**Your Task for This Thought:**\nProvide the next logical step in our reasoning process. Consider the user context (if provided), previous thoughts, and current thinking to advance our understanding.\n\n" ++
      constraintsOf args ++
      "\n\nYour response should be a cohesive thought that moves our analysis forward.\n",
      ?_⟩
    unfold geminiPrompt
    rw [geminiIntroOf_revision args m h1 h2,
      show (" This revises Thought #" : String) = " " ++ "This revises Thought #" from rfl]
    simp only [String.append_assoc]
  · intro originalQuery history args b h1 h2 h3
    refine ⟨"\n**Your Role:** You are an AI assistant analyzing a complex problem through sequential thinking. This is Thought #" ++
      toString args.thoughtNumber ++ " of " ++ toString args.totalThoughts ++
      ".\n\n**Original Request:** " ++ originalQuery ++
      geminiUserContextSection args.userContext ++ "**Current Thinking:** " ++
      args.currentThinking ++ "\n\n" ++
      (if args.thoughtNumber = 1 then "This is the first thought in our analysis."
       else "This is Thought #" ++ toString args.thoughtNumber ++
         " in our sequential analysis.") ++ " ",
      previousThoughtsSection history args.thoughtNumber ++ externalToolInfoOf args ++
      endingOf args ++
      "\n\n**Your Task for This Thought:**\nProvide the next logical step in our reasoning process. Consider the user context (if provided), previous thoughts, and current thinking to advance our understanding.\n\n" ++
      constraintsOf args ++
      "\n\nYour response should be a cohesive thought that moves our analysis forward.\n",
      ?_⟩
    unfold geminiPrompt
    rw [geminiIntroOf_branch args b h1 h2 h3,
      show (" This branches from Thought #" : String) =
        " " ++ "This branches from Thought #" from rfl]
    simp only [String.append_assoc]

/-- C7 amended witness: the Gemini assembler emits the branch sentence for
the very call on which the OpenRouter assembler omits it. -/
theorem c7_revision_branch_sentences_witness :
    SubstrOf ("This branches from Thought #" ++ toString 2 ++ ".")
      (geminiPrompt "start" [] c7Args) :=
  c7_revision_branch_sentences.2.2 "start" [] c7Args 2 rfl rfl (by decide)

/-- C8: the detector's concrete behaviors — the code-retrieval regex on the
review example, nothing on rule-free text, and the fallback file-search
path on the examine-the-code example. -/
theorem c8_detector_examples :
    detectToolRequest "I need to review the code for the authentication module" =
      some ⟨true, "code_retrieval", "the authentication module"⟩ ∧
    (∀ t : String,
      searchStr codeRequestRx t = none →
      searchStr docRequestRx t = none →
      searchStr fileRequestRx t = none →
      ((containsStr t "I should use the file search tool" ||
        containsStr t "we need to examine the code" ||
        containsStr t "using the code retrieval tool" ||
        containsStr t "need to look up the API") = false ∨
        (jsSplit t '\n').findSome? fallbackScanLine = none) →
      detectToolRequest t = none) ∧
    detectToolRequest "hello world" = none ∧
    detectToolRequest "we need to examine the code. search for: helper functions" =
      some ⟨true, "file_search", "helper functions"⟩ := by
  refine ⟨by decide, ?_, by decide, by decide⟩
  intro t h1 h2 h3 h4
  rcases h4 with h | h <;> simp [detectToolRequest, h1, h2, h3, h]

/-- C8 witness: the no-rule-matches case applied at `"hello world"`. -/
theorem c8_detector_examples_witness :
    detectToolRequest "hello world" = none :=
  c8_detector_examples.2.1 "hello world" (by decide) (by decide) (by decide)
    (Or.inl (by decide))

/-- Every suggestion the fallback scan returns is tagged `file_search` or
`code_retrieval`. -/
theorem fallbackScanLine_toolType (line : String) (r : ToolRequest)
    (h : fallbackScanLine line = some r) :
    r.toolType = "file_search" ∨ r.toolType = "code_retrieval" := by
  simp only [fallbackScanLine] at h
  split at h
  · injection h with h
    subst h
    by_cases hs : containsStr (jsToLower line) "search" = true
    · left
      simp [hs]
    · right
      simp [hs]
  · cases h

/-- Every suggestion `detectToolRequest` returns is tagged with one of the
three implemented tool types. -/
theorem detect_toolType_cases (t : String) (r : ToolRequest)
    (h : detectToolRequest t = some r) :
    r.toolType = "code_retrieval" ∨ r.toolType = "documentation" ∨
      r.toolType = "file_search" := by
  unfold detectToolRequest at h
  split at h
  · injection h with h
    subst h
    exact Or.inl rfl
  · split at h
    · injection h with h
      subst h
      exact Or.inr (Or.inl rfl)
    · split at h
      · injection h with h
        subst h
        exact Or.inr (Or.inr rfl)
      · split at h
        · obtain ⟨line, _, hline⟩ := List.exists_of_findSome?_eq_some h
          rcases fallbackScanLine_toolType line r hline with h' | h'
          · exact Or.inr (Or.inr h')
          · exact Or.inl h'
        · cases h

/-- C9 counterexample: no input ever yields a `symbol_definition`
suggestion — the detector has no such rule. -/
theorem c9_counterexample :
    ¬ ∃ (s : String) (r : ToolRequest),
        detectToolRequest s = some r ∧ r.toolType = "symbol_definition" := by
  rintro ⟨s, r, h, ht⟩
  rcases detect_toolType_cases s r h with h' | h' | h' <;> rw [h'] at ht <;>
    exact absurd ht (by decide)

/-- C9 amended: the detector's ordered rule list contains no
symbol-definition rule; every returned suggestion is tagged
`code_retrieval`, `documentation` or `file_search`. -/
theorem c9_no_symbol_definition :
    ∀ (s : String) (r : ToolRequest),
      detectToolRequest s = some r →
      r.toolType = "code_retrieval" ∨ r.toolType = "documentation" ∨
        r.toolType = "file_search" :=
  detect_toolType_cases

/-- C9 amended witness: a concrete detection carrying one of the three
implemented tool types. -/
theorem c9_no_symbol_definition_witness :
    detectToolRequest "I need to review the code for the authentication module" =
      some ⟨true, "code_retrieval", "the authentication module"⟩ ∧
    ((⟨true, "code_retrieval", "the authentication module"⟩ : ToolRequest).toolType =
        "code_retrieval" ∨
      (⟨true, "code_retrieval", "the authentication module"⟩ : ToolRequest).toolType =
        "documentation" ∨
      (⟨true, "code_retrieval", "the authentication module"⟩ : ToolRequest).toolType =
        "file_search") :=
  ⟨by decide,
    c9_no_symbol_definition "I need to review the code for the authentication module"
      ⟨true, "code_retrieval", "the authentication module"⟩ (by decide)⟩

end ARMcp
